import Mathlib

/-!
Verification of the Raspbot obstacle-avoidance core.

This file is a shallow embedding of the two core modules:

* `CarDriver` (src/car_driver.py): speed clamping, the per-wheel maneuver
  command patterns, and the retrying ultrasonic distance accessor
  `get_distance`.
* `ObstacleAvoidance` (src/auto_driver.py): the non-blocking state machine
  driven by `step()`, with states IDLE / FORWARD / BACKING_UP / TURNING.

Side effects (motor writes, sensor reads) are made observable as a list of
emitted `Act` values; timestamps are modelled as rationals (Python floats
compare exactly at the values the claims exercise).
-/

namespace Raspbot

/-- Upper clamp bound in `CarDriver.set_speed` (`min(255, speed)`). -/
def MAX_SPEED : Int := 255

/-- Embedding of `CarDriver.set_speed`: the stored speed after the call,
`max(0, min(255, speed))`. -/
def set_speed (speed : Int) : Int := max 0 (min MAX_SPEED speed)

/-- One per-wheel command, `bot.Ctrl_Car(motor, dir, speed)`. -/
structure WheelCmd where
  motor : Nat
  dir : Nat
  speed : Nat
deriving DecidableEq

/-- Embedding of `CarDriver.move_forward` as its four wheel commands. -/
def move_forward (s : Nat) : List WheelCmd :=
  [⟨0, 0, s⟩, ⟨1, 0, s⟩, ⟨2, 0, s⟩, ⟨3, 0, s⟩]

/-- Embedding of `CarDriver.move_backward`. -/
def move_backward (s : Nat) : List WheelCmd :=
  [⟨0, 1, s⟩, ⟨1, 1, s⟩, ⟨2, 1, s⟩, ⟨3, 1, s⟩]

/-- Embedding of `CarDriver.slide_left`. -/
def slide_left (s : Nat) : List WheelCmd :=
  [⟨0, 1, s⟩, ⟨1, 0, s⟩, ⟨2, 0, s⟩, ⟨3, 1, s⟩]

/-- Embedding of `CarDriver.slide_right`. -/
def slide_right (s : Nat) : List WheelCmd :=
  [⟨0, 0, s⟩, ⟨1, 1, s⟩, ⟨2, 1, s⟩, ⟨3, 0, s⟩]

/-- Embedding of `CarDriver.rotate_left`. -/
def rotate_left (s : Nat) : List WheelCmd :=
  [⟨0, 1, s⟩, ⟨1, 1, s⟩, ⟨2, 0, s⟩, ⟨3, 0, s⟩]

/-- Embedding of `CarDriver.rotate_right`. -/
def rotate_right (s : Nat) : List WheelCmd :=
  [⟨0, 0, s⟩, ⟨1, 0, s⟩, ⟨2, 1, s⟩, ⟨3, 1, s⟩]

/-- Two command lists are wheel-by-wheel mirror images: same motor ids in
the same order, same speed bytes, and opposite direction bits
(`dir + dir = 1` forces one 0 and one 1). -/
def mirrorCmds : List WheelCmd → List WheelCmd → Bool
  | [], [] => true
  | a :: as, b :: bs =>
      a.motor == b.motor && a.speed == b.speed && a.dir + b.dir == 1 &&
        mirrorCmds as bs
  | _, _ => false

/-- Every command in the list carries speed byte `s`. -/
def sameSpeed (s : Nat) (cmds : List WheelCmd) : Bool :=
  cmds.all fun c => c.speed == s

/-- Outcome of one attempt inside the `for _ in range(3)` loop of
`CarDriver.get_distance`: the underlying `read_data_array` raised, one of
the two returned lists was empty/falsy, or both byte reads delivered
values `h` (register 0x1b) and `l` (register 0x1a). -/
inductive ReadAttempt where
  | err
  | noData
  | bytes (h l : Nat)
deriving DecidableEq

/-- The combination `(diss_H << 8) | diss_L` in `get_distance`. -/
def combined (h l : Nat) : Nat := (h <<< 8) ||| l

/-- What one loop iteration of `get_distance` yields: `some dis` exactly
when both bytes were read and the combined value is strictly positive
(the `if dis > 0: return dis` path); every other outcome falls through to
the retry delay. -/
def attemptValue : ReadAttempt → Option Nat
  | .bytes h l => if combined h l > 0 then some (combined h l) else none
  | _ => none

/-- Embedding of `CarDriver.get_distance`: the `for _ in range(3)` retry
loop unrolled over the stream of attempt outcomes; returns the first
strictly-positive combined reading among the first three attempts, else
the sentinel 0. Exceptions are caught per attempt (`ReadAttempt.err`
simply falls through to the next attempt), so the function is total. -/
def get_distance (reads : Nat → ReadAttempt) : Nat :=
  match attemptValue (reads 0) with
  | some dis => dis
  | none =>
    match attemptValue (reads 1) with
    | some dis => dis
    | none =>
      match attemptValue (reads 2) with
      | some dis => dis
      | none => 0

/-- The four states of `ObstacleAvoidance` (`self.state` strings). -/
inductive OAState where
  | IDLE
  | FORWARD
  | BACKING_UP
  | TURNING
deriving DecidableEq

/-- Mutable fields of `ObstacleAvoidance` relevant to control flow. -/
structure OA where
  running : Bool
  state : OAState
  state_start_time : ℚ
deriving DecidableEq

/-- Constant `self.NEAR_DISTANCE = 300` set in `ObstacleAvoidance.__init__`. -/
def NEAR_DISTANCE : Nat := 300

/-- Constant `self.FAR_DISTANCE = 500` set in `ObstacleAvoidance.__init__`. -/
def FAR_DISTANCE : Nat := 500

/-- Constant `self.DEFAULT_SPEED = 40` set in `ObstacleAvoidance.__init__`. -/
def DEFAULT_SPEED : Nat := 40

/-- Backup dwell: the literal `0.5` in `current_time - self.state_start_time > 0.5`. -/
def BACKUP_DURATION : ℚ := 1 / 2

/-- Turn dwell: the literal `0.4` in `current_time - self.state_start_time > 0.4`. -/
def TURN_DURATION : ℚ := 2 / 5

/-- Observable effects emitted by the controller: calls into `CarDriver`
and the sensor read performed inside `step()`. -/
inductive Act where
  | sensorRead
  | carStop
  | carForward
  | carBackward
  | carRotateLeft
  | enableUltrasonic (enable : Bool)
  | setSpeed (s : Nat)
deriving DecidableEq

/-- The controller as built by `ObstacleAvoidance.__init__`. -/
def initOA : OA := { running := false, state := .IDLE, state_start_time := 0 }

/-- Embedding of `ObstacleAvoidance.start`: enables the sensor, sets the
speed, marks running, enters FORWARD and issues a forward command.
(`state_start_time` is not touched by `start` in the source.) -/
def OA.start (c : OA) : OA × List Act :=
  ({ c with running := true, state := .FORWARD },
   [.enableUltrasonic true, .setSpeed DEFAULT_SPEED, .carForward])

/-- Embedding of `ObstacleAvoidance.stop`: clears running, disables the
sensor, stops the motors and returns to IDLE, from any state. -/
def OA.stop (c : OA) : OA × List Act :=
  ({ c with running := false, state := .IDLE },
   [.enableUltrasonic false, .carStop])

/-- Embedding of `ObstacleAvoidance.step`. `current_time` is the value of
`time.time()` at this call; `dis` is the value `self.car.get_distance()`
would return if the FORWARD branch reads the sensor (the read itself is
recorded as `Act.sensorRead`). Mirrors the source branch for branch:
early return when not running; BACKING_UP and TURNING are sensor-blind
dwells exited only when the elapsed time strictly exceeds the duration;
FORWARD reads the sensor, treats `dis == 0 or dis > 4500` as a bad
reading (stop and return), backs up when `dis < NEAR_DISTANCE`, turns
when `dis <= FAR_DISTANCE`, and otherwise re-issues forward. -/
def OA.step (c : OA) (current_time : ℚ) (dis : Nat) : OA × List Act :=
  if c.running then
    match c.state with
    | .BACKING_UP =>
        if current_time - c.state_start_time > BACKUP_DURATION then
          ({ c with state := .FORWARD }, [.carStop])
        else (c, [])
    | .TURNING =>
        if current_time - c.state_start_time > TURN_DURATION then
          ({ c with state := .FORWARD }, [.carStop])
        else (c, [])
    | .FORWARD =>
        if dis = 0 ∨ dis > 4500 then (c, [.sensorRead, .carStop])
        else if dis < NEAR_DISTANCE then
          ({ c with state := .BACKING_UP, state_start_time := current_time },
           [.sensorRead, .carStop, .carBackward])
        else if dis ≤ FAR_DISTANCE then
          ({ c with state := .TURNING, state_start_time := current_time },
           [.sensorRead, .carStop, .carRotateLeft])
        else (c, [.sensorRead, .carForward])
    | .IDLE => (c, [])
  else (c, [])

/-- C7: for every integer input `s`, `set_speed s` is the input clamped into
`[0, MAX_SPEED]`: it is bounded on both sides, the identity on in-range
inputs, `set_speed (-5) = 0`, and `set_speed 9999 = MAX_SPEED`. -/
theorem C7_set_speed_clamps (s : Int) :
    0 ≤ set_speed s ∧ set_speed s ≤ MAX_SPEED ∧
    (0 ≤ s → s ≤ MAX_SPEED → set_speed s = s) ∧
    set_speed (-5) = 0 ∧ set_speed 9999 = MAX_SPEED := by
  refine ⟨le_max_left 0 _, ?_, ?_, by decide, by decide⟩
  · exact max_le (by norm_num [MAX_SPEED]) (min_le_left _ _)
  · intro h0 h255
    rw [set_speed, min_eq_right h255, max_eq_right h0]

/-- C7 witness: the clamp evaluated at the concrete inputs 40, -5, 9999. -/
theorem C7_witness :
    0 ≤ set_speed 40 ∧ set_speed 40 ≤ MAX_SPEED ∧ set_speed 40 = 40 ∧
    set_speed (-5) = 0 ∧ set_speed 9999 = MAX_SPEED := by
  have h := C7_set_speed_clamps 40
  exact ⟨h.1, h.2.1, h.2.2.1 (by decide) (by decide), h.2.2.2.1, h.2.2.2.2⟩

/-- C8: at every stored speed, `rotate_left` and `rotate_right` issue four
commands with the same motor ids, the same speed byte on every wheel, and
exactly opposite direction bits; `slide_left` and `slide_right` are
likewise mirror images. -/
theorem C8_mirror_maneuvers (s : Nat) :
    mirrorCmds (rotate_left s) (rotate_right s) = true ∧
    sameSpeed s (rotate_left s) = true ∧ sameSpeed s (rotate_right s) = true ∧
    mirrorCmds (slide_left s) (slide_right s) = true ∧
    sameSpeed s (slide_left s) = true ∧ sameSpeed s (slide_right s) = true := by
  simp [mirrorCmds, sameSpeed, rotate_left, rotate_right, slide_left,
    slide_right, List.all]

/-- C5: a `step()` in FORWARD whose sensor read returns the sentinel 0
issues a motor stop and returns with the controller entirely unchanged
(state still FORWARD, no transition to BACKING_UP or TURNING, and no
forward command re-issued). -/
theorem C5_invalid_sample_failsafe (c : OA) (t : ℚ)
    (h : c.running = true) (hs : c.state = OAState.FORWARD) :
    (OA.step c t 0).1 = c ∧ (OA.step c t 0).1.state = OAState.FORWARD ∧
    (OA.step c t 0).2 = [Act.sensorRead, Act.carStop] := by
  simp [OA.step, h, hs]

/-- C5 witness: the sentinel fail-safe evaluated on a concrete running
FORWARD controller. -/
theorem C5_witness :
    (OA.step { running := true, state := .FORWARD, state_start_time := 0 } 1 0).1
      = { running := true, state := .FORWARD, state_start_time := 0 } ∧
    (OA.step { running := true, state := .FORWARD, state_start_time := 0 } 1 0).1.state
      = OAState.FORWARD ∧
    (OA.step { running := true, state := .FORWARD, state_start_time := 0 } 1 0).2
      = [Act.sensorRead, Act.carStop] :=
  C5_invalid_sample_failsafe
    { running := true, state := .FORWARD, state_start_time := 0 } 1 rfl rfl

/-- C10: a distance sample strictly greater than 4500 mm takes the same
bad-reading branch as the sentinel 0: `step()` stops the motors and
returns with the controller unchanged, and the whole call is
indistinguishable from a call whose read returned 0. -/
theorem C10_overrange_like_sentinel (c : OA) (t : ℚ) (dis : Nat)
    (h : c.running = true) (hs : c.state = OAState.FORWARD) (hd : 4500 < dis) :
    OA.step c t dis = (c, [Act.sensorRead, Act.carStop]) ∧
    OA.step c t dis = OA.step c t 0 := by
  have hne : ¬(dis = 0) := by omega
  simp [OA.step, h, hs, hd, hne]

/-- C10 witness: the over-range branch evaluated at the concrete sample
4501 on a running FORWARD controller. -/
theorem C10_witness :
    OA.step { running := true, state := .FORWARD, state_start_time := 0 } 1 4501
      = ({ running := true, state := .FORWARD, state_start_time := 0 },
         [Act.sensorRead, Act.carStop]) ∧
    OA.step { running := true, state := .FORWARD, state_start_time := 0 } 1 4501
      = OA.step { running := true, state := .FORWARD, state_start_time := 0 } 1 0 :=
  C10_overrange_like_sentinel
    { running := true, state := .FORWARD, state_start_time := 0 } 1 4501
    rfl rfl (by norm_num)

/-- C9: `stop()` from any controller state sets the state to IDLE with
running false, emits exactly the sensor-disable and motor-stop effects,
and every subsequent `step()` call returns immediately with no effect at
all (in particular, no maneuver command). -/
theorem C9_stop_from_any_state (c : OA) :
    (OA.stop c).1.state = OAState.IDLE ∧ (OA.stop c).1.running = false ∧
    (OA.stop c).2 = [Act.enableUltrasonic false, Act.carStop] ∧
    ∀ (t : ℚ) (dis : Nat), OA.step (OA.stop c).1 t dis = ((OA.stop c).1, []) := by
  refine ⟨rfl, rfl, rfl, ?_⟩
  intro t dis
  simp [OA.stop, OA.step]

/-- C1 counterexample: the claim says the FORWARD decision is taken on the
mean of a 3-sample history, so the run [600, 50, 600] would stay FORWARD.
On the code, after the samples 600 then 50 the controller is in
BACKING_UP (it has left FORWARD and issued a reverse command): the
decision is taken on the single latest sample. -/
theorem C1_counterexample :
    (OA.step (OA.step (OA.start initOA).1 1 600).1 2 50).1.state
        = OAState.BACKING_UP ∧
    (OA.step (OA.step (OA.start initOA).1 1 600).1 2 50).1.state
        ≠ OAState.FORWARD ∧
    Act.carBackward ∈ (OA.step (OA.step (OA.start initOA).1 1 600).1 2 50).2 := by
  decide

/-- C1 (amended): the controller keeps no sample history; the near/far
decision in FORWARD is taken on the single latest valid sample against
NEAR_DISTANCE = 300 and FAR_DISTANCE = 500. On the run [600, 50, ...]
the first sample leaves the controller unchanged (600 > FAR_DISTANCE)
and the second sample, 50 < NEAR_DISTANCE, immediately transitions to
BACKING_UP with a stop and a reverse command. -/
theorem C1_latest_sample_decides (c : OA) (t1 t2 : ℚ)
    (h : c.running = true) (hs : c.state = OAState.FORWARD) :
    (OA.step c t1 600).1 = c ∧
    (OA.step (OA.step c t1 600).1 t2 50).1.state = OAState.BACKING_UP ∧
    (OA.step (OA.step c t1 600).1 t2 50).2
      = [Act.sensorRead, Act.carStop, Act.carBackward] := by
  have h1 : (OA.step c t1 600).1 = c := by
    simp [OA.step, h, hs, NEAR_DISTANCE, FAR_DISTANCE]
  refine ⟨h1, ?_, ?_⟩ <;> rw [h1] <;>
    simp [OA.step, h, hs, NEAR_DISTANCE]

/-- C1 witness: the amended behaviour evaluated on a concrete running
FORWARD controller at times 1 and 2. -/
theorem C1_witness :
    (OA.step { running := true, state := .FORWARD, state_start_time := 0 } 1 600).1
      = { running := true, state := .FORWARD, state_start_time := 0 } ∧
    (OA.step (OA.step { running := true, state := .FORWARD, state_start_time := 0 } 1 600).1
        2 50).1.state = OAState.BACKING_UP ∧
    (OA.step (OA.step { running := true, state := .FORWARD, state_start_time := 0 } 1 600).1
        2 50).2 = [Act.sensorRead, Act.carStop, Act.carBackward] :=
  C1_latest_sample_decides
    { running := true, state := .FORWARD, state_start_time := 0 } 1 2 rfl rfl

/-- C2 counterexample: the claim says a `step()` arriving before
SENSOR_POLL_INTERVAL has elapsed performs no sensor read. On the code,
two consecutive `step()` calls at the very same instant (zero elapsed
time) both perform a sensor read: there is no polling throttle. -/
theorem C2_counterexample :
    Act.sensorRead ∈ (OA.step (OA.start initOA).1 0 600).2 ∧
    Act.sensorRead ∈ (OA.step (OA.step (OA.start initOA).1 0 600).1 0 600).2 := by
  decide

/-- C2 (amended): every `step()` taken while running in FORWARD performs a
sensor read, regardless of the elapsed time since the previous read;
the code has no SENSOR_POLL_INTERVAL throttle. -/
theorem C2_every_step_polls (c : OA) (t : ℚ) (dis : Nat)
    (h : c.running = true) (hs : c.state = OAState.FORWARD) :
    Act.sensorRead ∈ (OA.step c t dis).2 := by
  simp only [OA.step, h, hs, if_true]
  split_ifs <;> simp

/-- C2 witness: the always-polls property evaluated on a concrete running
FORWARD controller. -/
theorem C2_witness :
    Act.sensorRead ∈
      (OA.step { running := true, state := .FORWARD, state_start_time := 0 } 0 600).2 :=
  C2_every_step_polls
    { running := true, state := .FORWARD, state_start_time := 0 } 0 600 rfl rfl

/-- C3: in FORWARD with a valid sample, a reading of exactly NEAR_DISTANCE
does not transition to BACKING_UP (the backup guard is strict `<`), a
reading of exactly FAR_DISTANCE transitions to TURNING (the turn guard is
inclusive `<=`), and a valid reading strictly above FAR_DISTANCE keeps the
state FORWARD and re-issues the forward command. -/
theorem C3_threshold_boundaries (c : OA) (t : ℚ) (dis : Nat)
    (h : c.running = true) (hs : c.state = OAState.FORWARD) :
    (OA.step c t NEAR_DISTANCE).1.state ≠ OAState.BACKING_UP ∧
    (OA.step c t FAR_DISTANCE).1.state = OAState.TURNING ∧
    (FAR_DISTANCE < dis → dis ≤ 4500 →
      (OA.step c t dis).1.state = OAState.FORWARD ∧
      Act.carForward ∈ (OA.step c t dis).2) := by
  refine ⟨?_, ?_, ?_⟩
  · simp [OA.step, h, hs, NEAR_DISTANCE, FAR_DISTANCE]
  · simp [OA.step, h, hs, NEAR_DISTANCE, FAR_DISTANCE]
  · intro h1 h2
    have h1n : 500 < dis := by simpa [FAR_DISTANCE] using h1
    have hne : ¬(dis = 0) := by omega
    have hng : ¬(dis > 4500) := by omega
    have hnn : ¬(dis < NEAR_DISTANCE) := by simp only [NEAR_DISTANCE]; omega
    have hnf : ¬(dis ≤ FAR_DISTANCE) := by simp only [FAR_DISTANCE]; omega
    simp [OA.step, h, hs, hne, hng, hnn, hnf]

/-- C3 witness: the three boundary behaviours evaluated on a concrete
running FORWARD controller with the above-far sample 501. -/
theorem C3_witness :
    (OA.step { running := true, state := .FORWARD, state_start_time := 0 } 1
        NEAR_DISTANCE).1.state ≠ OAState.BACKING_UP ∧
    (OA.step { running := true, state := .FORWARD, state_start_time := 0 } 1
        FAR_DISTANCE).1.state = OAState.TURNING ∧
    ((OA.step { running := true, state := .FORWARD, state_start_time := 0 } 1
        501).1.state = OAState.FORWARD ∧
      Act.carForward ∈
        (OA.step { running := true, state := .FORWARD, state_start_time := 0 } 1 501).2) := by
  have h := C3_threshold_boundaries
    { running := true, state := .FORWARD, state_start_time := 0 } 1 501 rfl rfl
  exact ⟨h.1, h.2.1, h.2.2 (by decide) (by decide)⟩

/-- C4 counterexample: the claim says elapsed time equal to BACKUP_DURATION
already returns the controller to FORWARD, but the exit guard in the code
is the strict comparison `current_time - state_start_time > 0.5`: at
elapsed time exactly BACKUP_DURATION the state is still BACKING_UP. -/
theorem C4_counterexample :
    (OA.step { running := true, state := .BACKING_UP, state_start_time := 0 }
        BACKUP_DURATION 600).1.state = OAState.BACKING_UP := by
  have hnot : ¬((BACKUP_DURATION : ℚ) - 0 > BACKUP_DURATION) := by norm_num
  simp [OA.step, hnot]

/-- C4 (amended): in BACKING_UP, a `step()` with elapsed time less than or
EQUAL to BACKUP_DURATION leaves the state BACKING_UP and performs no
sensor read and no motor command; only a `step()` with elapsed time
strictly greater than BACKUP_DURATION issues a motor stop and returns the
state to FORWARD. -/
theorem C4_backup_dwell (c : OA) (t : ℚ) (dis : Nat)
    (h : c.running = true) (hs : c.state = OAState.BACKING_UP) :
    (t - c.state_start_time ≤ BACKUP_DURATION →
      (OA.step c t dis).1.state = OAState.BACKING_UP ∧ (OA.step c t dis).2 = []) ∧
    (BACKUP_DURATION < t - c.state_start_time →
      (OA.step c t dis).1.state = OAState.FORWARD ∧
      (OA.step c t dis).2 = [Act.carStop]) := by
  constructor
  · intro hle
    have hnot : ¬(t - c.state_start_time > BACKUP_DURATION) := not_lt.mpr hle
    simp [OA.step, h, hs, hnot]
  · intro hgt
    simp [OA.step, h, hs, hgt]

/-- C4 witness: the dwell evaluated at elapsed times 2/5 (stays) and 1
(exits) from a concrete BACKING_UP controller entered at time 0. -/
theorem C4_witness :
    ((OA.step { running := true, state := .BACKING_UP, state_start_time := 0 }
        (2/5) 0).1.state = OAState.BACKING_UP ∧
      (OA.step { running := true, state := .BACKING_UP, state_start_time := 0 }
        (2/5) 0).2 = []) ∧
    ((OA.step { running := true, state := .BACKING_UP, state_start_time := 0 }
        1 0).1.state = OAState.FORWARD ∧
      (OA.step { running := true, state := .BACKING_UP, state_start_time := 0 }
        1 0).2 = [Act.carStop]) := by
  constructor
  · exact (C4_backup_dwell
      { running := true, state := .BACKING_UP, state_start_time := 0 } (2/5) 0 rfl rfl).1
      (by norm_num [BACKUP_DURATION])
  · exact (C4_backup_dwell
      { running := true, state := .BACKING_UP, state_start_time := 0 } 1 0 rfl rfl).2
      (by norm_num [BACKUP_DURATION])

/-- C6: `get_distance` depends on at most its first 3 attempt outcomes;
it returns the combined value `(high <<< 8) ||| low` of the first attempt
whose combined value is strictly positive, every earlier attempt having
yielded no valid sample (read raised, missing data, or combined value 0);
and it returns the sentinel 0 when all three attempts yield no valid
sample. The function is total: an attempt that raises is absorbed as a
retry and never propagates. -/
theorem C6_get_distance_retries (reads : Nat → ReadAttempt) :
    (∀ g : Nat → ReadAttempt, (∀ i, i < 3 → reads i = g i) →
      get_distance reads = get_distance g) ∧
    (∀ j hb lb, j < 3 → reads j = ReadAttempt.bytes hb lb → 0 < combined hb lb →
      (∀ i, i < j → attemptValue (reads i) = none) →
      get_distance reads = combined hb lb) ∧
    ((∀ i, i < 3 → attemptValue (reads i) = none) → get_distance reads = 0) := by
  refine ⟨?_, ?_, ?_⟩
  · intro g hg
    unfold get_distance
    rw [hg 0 (by norm_num), hg 1 (by norm_num), hg 2 (by norm_num)]
  · intro j hb lb hj hbytes hpos hprev
    have hv : attemptValue (ReadAttempt.bytes hb lb) = some (combined hb lb) := by
      simp [attemptValue, hpos]
    interval_cases j
    · unfold get_distance
      rw [hbytes, hv]
    · unfold get_distance
      rw [hprev 0 (by norm_num), hbytes, hv]
    · unfold get_distance
      rw [hprev 0 (by norm_num), hprev 1 (by norm_num), hbytes, hv]
  · intro hall
    unfold get_distance
    rw [hall 0 (by norm_num), hall 1 (by norm_num), hall 2 (by norm_num)]

/-- C6 witness: a first attempt that raises followed by a successful byte
pair (1, 2) yields the combined value 258 on the second attempt. -/
theorem C6_witness :
    get_distance
      (fun i => if i = 0 then ReadAttempt.err else ReadAttempt.bytes 1 2)
      = combined 1 2 :=
  (C6_get_distance_retries
      (fun i => if i = 0 then ReadAttempt.err else ReadAttempt.bytes 1 2)).2.1
    1 1 2 (by norm_num) rfl (by decide)
    (by intro i hi; interval_cases i; rfl)

end Raspbot
